import Mathlib

/-!
Shallow embedding of `src/build/src/ElectricWaterHeater.cpp` (repository DCS):
a CTA-2045-style demand-response (DR) controller for an electric water heater.

The controller keeps a Property Store of power/energy fields, refreshes them
from commodity telemetry, maps DR events onto protocol commands, and runs a
tick-driven reconciliation loop that arbitrates between the DR-layer
desired import setpoint and the device-reported commanded power.

Side effects on the device command port are modelled as an emitted list of
`Command` values; the controller's mutable fields (`opstate_`, `log_minute_`
and the Property Store) form the `State` record threaded through every
operation.
-/

namespace ElectricWaterHeater

/-- Modelled from the spec: the device-reported operational-state codes read
back from the device command port (`ucm_.GetOpState ()`).  The defining header
is not under `src/`, so the state set follows spec §3 (the source compares
against the tokens `GRID`, `CURTAILED` and `HEIGHTENED`; `GRID` is the source
token for the grid-emergency state). -/
inductive OpState where
  | NORMAL
  | LOAD_UP
  | CURTAILED
  | CRITICAL_PEAK
  | GRID
  | HEIGHTENED
  deriving DecidableEq, Repr

/-- Modelled from the spec: one commodity reading `{code, rate, cumulative}`
(spec §3 `CommodityReading`); the C++ `CommodityData` type is declared in a
header that is not under `src/`. -/
structure CommodityData where
  code : Nat
  rate : Nat
  cumulative : Nat
  deriving DecidableEq, Repr

/-- Modelled from the spec: the Property Store fields behind the
`DistributedEnergyResource` get/set accessors (spec §3 `PowerState`, §6).
Field names follow the source accessors (`GetImportWatts`, `SetImportPower`,
`SetRatedImportEnergy`, ...): `import_watts` is the DR-layer desired import
setpoint (spec name `import_setpoint_watts`) and `import_power` the
device-reported commanded power (spec name `import_commanded_watts`); the two
are independent fields of the store. -/
structure PowerState where
  import_watts : Nat
  import_power : Nat
  export_energy : Nat
  rated_import_power : Nat
  rated_import_energy : Nat
  import_energy : Nat
  import_ramp : Nat
  idle_losses : Nat
  deriving DecidableEq, Repr

/-- A command issued through the device command port (`device_ptr_->...`).
Durations are the integer arguments of the basic commands (0 = indefinite). -/
inductive Command where
  | commStatusFound
  | querySupportDataLinkMessages
  | queryMaxPayload
  | querySupportIntermediateMessages
  | getDeviceInformation
  | getCommodity
  | queryOperationalState
  | criticalPeakEvent (duration : Nat)
  | loadUp (duration : Nat)
  | gridEmergency (duration : Nat)
  | endShed (duration : Nat)
  | shed (duration : Nat)
  deriving DecidableEq, Repr

/-- The controller's mutable fields: the Property Store (`power`), the local
optimistic operational state `opstate_` (a plain integer code in the source:
the handlers assign the literals 3, 4 and 5) and the logging-cadence guard
`log_minute_`. -/
structure State where
  power : PowerState
  opstate : Nat
  log_minute : Nat
  deriving DecidableEq, Repr

/-- The device-side inputs the controller reads synchronously on a tick: the
commodity readings returned by `ucm_.GetCommodityData ()` and the
device-reported operational state returned by `ucm_.GetOpState ()`. -/
structure UcmState where
  commodities : List CommodityData
  op_state : OpState
  deriving DecidableEq, Repr

/-- Numeric configuration values read by the constructor
(`ucm_heartbeat`, `log_inc`, `EWH_rated_import_ramp`). -/
structure Configs where
  ucm_heartbeat : Nat
  log_inc : Nat
  ewh_rated_import_ramp : Nat
  deriving DecidableEq, Repr

/-- Body of the fold in `QueryProperties` (lines 87-95): code 0 writes
`SetImportPower (commodity.rate)`, code 6 writes
`SetRatedImportEnergy (commodity.cumulative)`, code 7 writes
`SetImportEnergy (commodity.cumulative)`; any other code is ignored. -/
def applyCommodity (p : PowerState) (c : CommodityData) : PowerState :=
  if c.code = 0 then
    { p with import_power := c.rate }
  else if c.code = 6 then
    { p with rated_import_energy := c.cumulative }
  else if c.code = 7 then
    { p with import_energy := c.cumulative }
  else
    p

/-- Effect of `QueryProperties` on the Property Store: fold every commodity
reading into the store (lines 87-95). -/
def queryPropertiesPower (p : PowerState) (cs : List CommodityData) : PowerState :=
  cs.foldl applyCommodity p

/-- `ElectricWaterHeater::QueryProperties` (lines 84-100): issue the commodity
query, fold the readings into the Property Store, then issue the
operational-state query (whose response is discarded by this caller). -/
def QueryProperties (ucm : UcmState) (s : State) : State × List Command :=
  ({ s with power := queryPropertiesPower s.power ucm.commodities },
   [Command.getCommodity, Command.queryOperationalState])

/-- `ElectricWaterHeater::SetCriticalPeak` (lines 55-59): issue
`basicCriticalPeakEvent (0)` and set `opstate_ = 4`. -/
def SetCriticalPeak (s : State) : State × List Command :=
  ({ s with opstate := 4 }, [Command.criticalPeakEvent 0])

/-- `ElectricWaterHeater::SetLoadUp` (lines 62-66): set `opstate_ = 3` and
issue `basicLoadUp (0)`. -/
def SetLoadUp (s : State) : State × List Command :=
  ({ s with opstate := 3 }, [Command.loadUp 0])

/-- `ElectricWaterHeater::SetGridEmergency` (lines 69-73): set `opstate_ = 5`
and issue `basicGridEmergency (0)`. -/
def SetGridEmergency (s : State) : State × List Command :=
  ({ s with opstate := 5 }, [Command.gridEmergency 0])

/-- `ElectricWaterHeater::EndCurtailment` (lines 104-107): issue
`basicEndShed (0)`; no controller field is written. -/
def EndCurtailment (s : State) : State × List Command :=
  (s, [Command.endShed 0])

/-- `ElectricWaterHeater::ImportPower` (lines 116-119): issue `basicLoadUp (0)`
(zero duration means as long as possible). -/
def ImportPower (s : State) : State × List Command :=
  (s, [Command.loadUp 0])

/-- `ElectricWaterHeater::ExportPower` (lines 123-126): water heaters cannot
export power, so only `SetExportEnergy (0)` is performed. -/
def ExportPower (s : State) : State × List Command :=
  ({ s with power := { s.power with export_energy := 0 } }, [])

/-- `ElectricWaterHeater::IdleLoss` (lines 132-134): issue `basicShed (0)`. -/
def IdleLoss (s : State) : State × List Command :=
  (s, [Command.shed 0])

/-- The power-arbitration block of `Loop` (lines 158-168), on the
device-reported operational state and the current Property Store values:
if `GetImportWatts () > 0 && GetImportPower () == 0`, call `ImportPower`
unless the device-reported state is `HEIGHTENED`; else if
`GetImportPower () > 0 && GetImportWatts () == 0`, call `IdleLoss` when the
device-reported state `!= GRID || != CURTAILED` (the source's disjunction,
kept literally). -/
def arbitrate (dev : OpState) (p : PowerState) : List Command :=
  if p.import_watts > 0 ∧ p.import_power = 0 then
    if dev ≠ OpState.HEIGHTENED then [Command.loadUp 0] else []
  else if p.import_power > 0 ∧ p.import_watts = 0 then
    if dev ≠ OpState.GRID ∨ dev ≠ OpState.CURTAILED then [Command.shed 0] else []
  else
    []

/-- Result of one tick of `Loop`: the new controller state, the commands
issued through the device command port, and the number of telemetry log
records emitted (0 or 1). -/
structure LoopResult where
  state : State
  cmds : List Command
  logs : Nat
  deriving DecidableEq, Repr

/-- `ElectricWaterHeater::Loop` (lines 137-169).  `sec` and `mn` are the
sampled wall-clock second and minute; `hb` is the configured `heartbeat_`
interval in minutes.  Steps, in source order: refresh the properties on even
seconds (lines 143-145); re-announce the outside-communication status when
`mn % hb == 0 && sec < 1` (lines 146-150); emit a telemetry record when
`sec == 0` and the minute differs from `log_minute_`, updating `log_minute_`
(lines 152-156); run the power arbitration (lines 158-168). -/
def Loop (sec mn hb : Nat) (ucm : UcmState) (s : State) : LoopResult :=
  let refreshed := if sec % 2 = 0 then QueryProperties ucm s else (s, [])
  let hbCmds := if mn % hb = 0 ∧ sec < 1 then [Command.commStatusFound] else []
  let logStep :=
    if sec = 0 ∧ refreshed.1.log_minute ≠ mn then
      ({ refreshed.1 with log_minute := mn }, 1)
    else
      (refreshed.1, 0)
  { state := logStep.1,
    cmds := refreshed.2 ++ hbCmds ++ arbitrate ucm.op_state logStep.1.power,
    logs := logStep.2 }

/-- Run `Loop` over a list of sampled `(second, minute)` wall-clock pairs with
a fixed device-side state, returning the final controller state and the
per-tick telemetry-record counts. -/
def runLoop (hb : Nat) (ucm : UcmState) (s : State) : List (Nat × Nat) → State × List Nat
  | [] => (s, [])
  | (sec, mn) :: rest =>
    let r := Loop sec mn hb ucm s
    let next := runLoop hb ucm r.state rest
    (next.1, r.logs :: next.2)

/-- The constructor `ElectricWaterHeater::ElectricWaterHeater` (lines 12-48),
success path, after the transport is open: announce communication status
"Found", issue the four awaited capability queries in order, then
`SetRatedImportPower (4500)`, `SetExportEnergy (0)`,
`SetImportRamp (stoul (configs["EWH_rated_import_ramp"]))`,
`SetIdleLosses (100)`, and finally one immediate `QueryProperties`.
`s0` is the controller state before the constructor body runs. -/
def construct (cfg : Configs) (ucm : UcmState) (s0 : State) : State × List Command :=
  let s1 : State :=
    { s0 with power :=
      { s0.power with
        rated_import_power := 4500,
        export_energy := 0,
        import_ramp := cfg.ewh_rated_import_ramp,
        idle_losses := 100 } }
  let refreshed := QueryProperties ucm s1
  (refreshed.1,
   [Command.commStatusFound,
    Command.querySupportDataLinkMessages,
    Command.queryMaxPayload,
    Command.querySupportIntermediateMessages,
    Command.getDeviceInformation] ++ refreshed.2)

/-!
Helper lemmas about the commodity fold and the loop, shared by several
theorems below.
-/

/-- Last value written to a store field by the readings of code `k`, seeded
with the field's prior value `d`. -/
def lastWrite (k : Nat) (f : CommodityData → Nat) (cs : List CommodityData) (d : Nat) : Nat :=
  cs.foldl (fun acc c => if c.code = k then f c else acc) d

theorem lastWrite_nil (k : Nat) (f : CommodityData → Nat) (d : Nat) :
    lastWrite k f [] d = d := rfl

theorem lastWrite_cons (k : Nat) (f : CommodityData → Nat) (c : CommodityData)
    (cs : List CommodityData) (d : Nat) :
    lastWrite k f (c :: cs) d = lastWrite k f cs (if c.code = k then f c else d) := rfl

theorem lastWrite_lastWrite (k : Nat) (f : CommodityData → Nat) :
    ∀ (cs : List CommodityData) (d : Nat),
      lastWrite k f cs (lastWrite k f cs d) = lastWrite k f cs d := by
  intro cs
  induction cs with
  | nil => intro d; rfl
  | cons c cs ih =>
    intro d
    by_cases h : c.code = k
    · simp [lastWrite_cons, h]
    · simp [lastWrite_cons, h, ih]

/-- Closed form of the commodity fold: code 0 readings overwrite
`import_power` with their `rate`, code 6 readings overwrite
`rated_import_energy` with their `cumulative`, code 7 readings overwrite
`import_energy` with their `cumulative`; all other fields are untouched. -/
theorem queryPropertiesPower_closed :
    ∀ (cs : List CommodityData) (p : PowerState),
      queryPropertiesPower p cs =
        { p with
          import_power := lastWrite 0 (fun c => c.rate) cs p.import_power,
          rated_import_energy :=
            lastWrite 6 (fun c => c.cumulative) cs p.rated_import_energy,
          import_energy := lastWrite 7 (fun c => c.cumulative) cs p.import_energy } := by
  intro cs
  induction cs with
  | nil => intro p; rfl
  | cons c cs ih =>
    intro p
    show queryPropertiesPower (applyCommodity p c) cs = _
    rw [ih]
    by_cases h0 : c.code = 0
    · simp [applyCommodity, lastWrite_cons, h0]
    · by_cases h6 : c.code = 6
      · simp [applyCommodity, lastWrite_cons, h0, h6]
      · by_cases h7 : c.code = 7
        · simp [applyCommodity, lastWrite_cons, h0, h6, h7]
        · simp [applyCommodity, lastWrite_cons, h0, h6, h7]

theorem queryPropertiesPower_import_watts (p : PowerState) (cs : List CommodityData) :
    (queryPropertiesPower p cs).import_watts = p.import_watts := by
  rw [queryPropertiesPower_closed]

theorem queryPropertiesPower_export_energy (p : PowerState) (cs : List CommodityData) :
    (queryPropertiesPower p cs).export_energy = p.export_energy := by
  rw [queryPropertiesPower_closed]

theorem queryPropertiesPower_rated_import_power (p : PowerState) (cs : List CommodityData) :
    (queryPropertiesPower p cs).rated_import_power = p.rated_import_power := by
  rw [queryPropertiesPower_closed]

theorem queryPropertiesPower_import_ramp (p : PowerState) (cs : List CommodityData) :
    (queryPropertiesPower p cs).import_ramp = p.import_ramp := by
  rw [queryPropertiesPower_closed]

theorem queryPropertiesPower_idle_losses (p : PowerState) (cs : List CommodityData) :
    (queryPropertiesPower p cs).idle_losses = p.idle_losses := by
  rw [queryPropertiesPower_closed]

/-- The commodity fold is idempotent on the Property Store. -/
theorem queryPropertiesPower_idem (p : PowerState) (cs : List CommodityData) :
    queryPropertiesPower (queryPropertiesPower p cs) cs = queryPropertiesPower p cs := by
  rw [queryPropertiesPower_closed cs p, queryPropertiesPower_closed cs]
  simp [lastWrite_lastWrite]

theorem QueryProperties_log_minute (ucm : UcmState) (s : State) :
    (QueryProperties ucm s).1.log_minute = s.log_minute := rfl

theorem QueryProperties_opstate (ucm : UcmState) (s : State) :
    (QueryProperties ucm s).1.opstate = s.opstate := rfl

theorem Loop_opstate (sec mn hb : Nat) (ucm : UcmState) (s : State) :
    (Loop sec mn hb ucm s).state.opstate = s.opstate := by
  unfold Loop
  dsimp only
  split <;> split <;> rfl

theorem Loop_log_minute (sec mn hb : Nat) (ucm : UcmState) (s : State) :
    (Loop sec mn hb ucm s).state.log_minute =
      if sec = 0 ∧ s.log_minute ≠ mn then mn else s.log_minute := by
  unfold Loop
  dsimp only
  split <;> split <;> simp_all [QueryProperties]
  split <;> simp_all

theorem Loop_logs (sec mn hb : Nat) (ucm : UcmState) (s : State) :
    (Loop sec mn hb ucm s).logs = if sec = 0 ∧ s.log_minute ≠ mn then 1 else 0 := by
  unfold Loop
  dsimp only
  split <;> split <;> simp_all [QueryProperties]
  split <;> simp_all

theorem Loop_export_energy (sec mn hb : Nat) (ucm : UcmState) (s : State) :
    (Loop sec mn hb ucm s).state.power.export_energy = s.power.export_energy := by
  unfold Loop
  dsimp only
  split <;> split <;>
    simp_all [QueryProperties, queryPropertiesPower_export_energy]

/-!
Claim theorems.
-/

/-- C1: in the reconciliation loop's second arbitration branch
(device-reported commanded import positive, DR setpoint zero), the guard
"device-reported state is not `GRID` or not `CURTAILED`" holds for every
single state value, so the idle-loss command (`shed`, zero duration) is issued
regardless of the device-reported operational state, including `GRID` and
`CURTAILED`. -/
theorem shed_branch_guard_always_true (dev : OpState) (p : PowerState)
    (hp : p.import_power > 0) (hw : p.import_watts = 0) :
    (dev ≠ OpState.GRID ∨ dev ≠ OpState.CURTAILED) ∧
      arbitrate dev p = [Command.shed 0] := by
  refine ⟨?_, ?_⟩ <;> cases dev <;> simp [arbitrate, hw, hp]

theorem shed_branch_guard_always_true_witness :
    (PowerState.mk 0 500 0 0 0 0 0 0).import_power > 0 ∧
    (PowerState.mk 0 500 0 0 0 0 0 0).import_watts = 0 ∧
    ((OpState.GRID ≠ OpState.GRID ∨ OpState.GRID ≠ OpState.CURTAILED) ∧
      arbitrate OpState.GRID (PowerState.mk 0 500 0 0 0 0 0 0) = [Command.shed 0]) :=
  ⟨by decide, by decide,
    shed_branch_guard_always_true OpState.GRID (PowerState.mk 0 500 0 0 0 0 0 0)
      (by decide) (by decide)⟩

/-- C2 counterexample: starting from an all-zero Property Store, processing
the single commodity reading `{code := 0, rate := 500}` leaves the DR-layer
desired setpoint (`import_watts`, the signal the arbitration's load-up branch
tests as `import_setpoint_watts > 0`) at 0 and instead writes 500 into the
device-reported commanded power `import_power`; the next arbitration takes the
shed branch (the `import_commanded_watts > 0` side), refuting the claim that
the code-0 write targets the DR-layer desired side of the comparison. -/
theorem commodity_code0_targets_import_power_cex :
    (queryPropertiesPower (PowerState.mk 0 0 0 0 0 0 0 0)
        [CommodityData.mk 0 500 0]).import_watts = 0 ∧
    (queryPropertiesPower (PowerState.mk 0 0 0 0 0 0 0 0)
        [CommodityData.mk 0 500 0]).import_power = 500 ∧
    arbitrate OpState.NORMAL
        (queryPropertiesPower (PowerState.mk 0 0 0 0 0 0 0 0)
          [CommodityData.mk 0 500 0]) = [Command.shed 0] := by
  decide

/-- C2 (amended): a commodity reading with code 0 sets the device-reported
commanded power `import_power` (the spec's `import_commanded_watts`) to the
reading's rate and leaves the DR-layer desired `import_watts` unchanged; the
field written for code 0 is the signal the arbitration tests on the
`import_commanded_watts` side (the shed branch), not the DR-layer desired
`import_setpoint_watts` side. -/
theorem commodity_code0_sets_import_power (p : PowerState) (r cum : Nat) (dev : OpState) :
    (queryPropertiesPower p [CommodityData.mk 0 r cum]).import_power = r ∧
    (queryPropertiesPower p [CommodityData.mk 0 r cum]).import_watts = p.import_watts ∧
    (r > 0 → p.import_watts = 0 →
      arbitrate dev (queryPropertiesPower p [CommodityData.mk 0 r cum]) =
        [Command.shed 0]) := by
  refine ⟨rfl, rfl, ?_⟩
  intro hr hw
  show arbitrate dev { p with import_power := r } = [Command.shed 0]
  cases dev <;> simp [arbitrate, hw, hr]

theorem commodity_code0_sets_import_power_witness :
    (500 : Nat) > 0 ∧
    (PowerState.mk 0 0 0 0 0 0 0 0).import_watts = 0 ∧
    arbitrate OpState.CURTAILED
        (queryPropertiesPower (PowerState.mk 0 0 0 0 0 0 0 0)
          [CommodityData.mk 0 500 0]) = [Command.shed 0] :=
  ⟨by decide, by decide,
    (commodity_code0_sets_import_power (PowerState.mk 0 0 0 0 0 0 0 0) 500 0
        OpState.CURTAILED).2.2 (by decide) (by decide)⟩

/-- C3: when the DR setpoint is positive and the device-reported commanded
commanded import is zero, the load-up (resume-import, zero duration) command is issued
if and only if the device-reported operational state is not `HEIGHTENED`; for
`HEIGHTENED` no command is issued by the arbitration. -/
theorem resume_import_gating (dev : OpState) (p : PowerState)
    (hw : p.import_watts > 0) (hp : p.import_power = 0) :
    (arbitrate dev p = [Command.loadUp 0] ↔ dev ≠ OpState.HEIGHTENED) ∧
      (dev = OpState.HEIGHTENED → arbitrate dev p = []) := by
  cases dev <;> simp [arbitrate, hw, hp]

theorem resume_import_gating_witness :
    arbitrate OpState.NORMAL (PowerState.mk 500 0 0 0 0 0 0 0) = [Command.loadUp 0] ∧
    arbitrate OpState.HEIGHTENED (PowerState.mk 500 0 0 0 0 0 0 0) = [] :=
  ⟨(resume_import_gating OpState.NORMAL (PowerState.mk 500 0 0 0 0 0 0 0)
      (by decide) (by decide)).1.mpr (by decide),
   (resume_import_gating OpState.HEIGHTENED (PowerState.mk 500 0 0 0 0 0 0 0)
      (by decide) (by decide)).2 rfl⟩

/-- C4: whenever the DR setpoint and the device-reported commanded import
agree (both zero or both nonzero), the arbitration step issues no command at
all; and in every case the arbitration issues at most one command (empty, one
load-up, or one shed). -/
theorem arbitration_exclusivity (dev : OpState) (p : PowerState)
    (h : (p.import_watts = 0 ∧ p.import_power = 0) ∨
         (p.import_watts ≠ 0 ∧ p.import_power ≠ 0)) :
    arbitrate dev p = [] ∧
      ∀ (d : OpState) (q : PowerState),
        arbitrate d q = [] ∨ arbitrate d q = [Command.loadUp 0] ∨
          arbitrate d q = [Command.shed 0] := by
  constructor
  · rcases h with ⟨h1, h2⟩ | ⟨h1, h2⟩ <;> simp [arbitrate, h1, h2]
  · intro d q
    unfold arbitrate
    split
    · split
      · right; left; rfl
      · left; rfl
    · split
      · split
        · right; right; rfl
        · left; rfl
      · left; rfl

theorem arbitration_exclusivity_witness :
    ((PowerState.mk 5 7 0 0 0 0 0 0).import_watts = 0 ∧
      (PowerState.mk 5 7 0 0 0 0 0 0).import_power = 0) ∨
      ((PowerState.mk 5 7 0 0 0 0 0 0).import_watts ≠ 0 ∧
        (PowerState.mk 5 7 0 0 0 0 0 0).import_power ≠ 0) ∧
    arbitrate OpState.NORMAL (PowerState.mk 5 7 0 0 0 0 0 0) = [] :=
  Or.inr ⟨by decide,
    (arbitration_exclusivity OpState.NORMAL (PowerState.mk 5 7 0 0 0 0 0 0)
        (by decide)).1⟩

/-- C5: the property refresh is idempotent: for every starting state and every
fixed commodity-reading sequence, running `QueryProperties` twice with the
same readings leaves the Property Store exactly as one run does. -/
theorem query_properties_idempotent (ucm : UcmState) (s : State) (p : PowerState) :
    (QueryProperties ucm (QueryProperties ucm s).1).1 = (QueryProperties ucm s).1 ∧
      queryPropertiesPower (queryPropertiesPower p ucm.commodities) ucm.commodities =
        queryPropertiesPower p ucm.commodities := by
  constructor
  · simp [QueryProperties, queryPropertiesPower_idem]
  · exact queryPropertiesPower_idem p ucm.commodities

/-- C6: across loop ticks whose sampled wall-clock seconds are
`{58, 59, 0, 0, 1}` within the same minute `m`, with `log_minute_` initially
different from `m`, exactly one telemetry record is emitted: the first tick at
second 0 logs (and updates `log_minute_` to `m`), the second tick at second 0
does not log again. -/
theorem log_cadence_once_per_minute (hb m : Nat) (ucm : UcmState) (s : State)
    (h : s.log_minute ≠ m) :
    (runLoop hb ucm s [(58, m), (59, m), (0, m), (0, m), (1, m)]).2 = [0, 0, 1, 0, 0] ∧
    (runLoop hb ucm s [(58, m), (59, m), (0, m), (0, m), (1, m)]).2.sum = 1 ∧
    (runLoop hb ucm s [(58, m), (59, m), (0, m), (0, m), (1, m)]).1.log_minute = m := by
  simp [runLoop, Loop_logs, Loop_log_minute, h]

theorem log_cadence_once_per_minute_witness :
    (State.mk (PowerState.mk 0 0 0 0 0 0 0 0) 0 7).log_minute ≠ 3 ∧
    (runLoop 5 (UcmState.mk [] OpState.NORMAL)
        (State.mk (PowerState.mk 0 0 0 0 0 0 0 0) 0 7)
        [(58, 3), (59, 3), (0, 3), (0, 3), (1, 3)]).2 = [0, 0, 1, 0, 0] :=
  ⟨by decide,
    (log_cadence_once_per_minute 5 3 (UcmState.mk [] OpState.NORMAL)
        (State.mk (PowerState.mk 0 0 0 0 0 0 0 0) 0 7) (by decide)).1⟩

/-- C7: `ExportPower` always forces `export_energy` to 0, the constructor
zeroes it at startup, and every other operation of the controller leaves it
unchanged, so the export-energy invariant holds from construction onward. -/
theorem export_energy_invariant :
    (∀ s : State, (ExportPower s).1.power.export_energy = 0) ∧
    (∀ (cfg : Configs) (ucm : UcmState) (s0 : State),
      (construct cfg ucm s0).1.power.export_energy = 0) ∧
    (∀ (ucm : UcmState) (s : State),
      (QueryProperties ucm s).1.power.export_energy = s.power.export_energy) ∧
    (∀ (sec mn hb : Nat) (ucm : UcmState) (s : State),
      (Loop sec mn hb ucm s).state.power.export_energy = s.power.export_energy) ∧
    (∀ s : State, (SetCriticalPeak s).1.power.export_energy = s.power.export_energy) ∧
    (∀ s : State, (SetLoadUp s).1.power.export_energy = s.power.export_energy) ∧
    (∀ s : State, (SetGridEmergency s).1.power.export_energy = s.power.export_energy) ∧
    (∀ s : State, (EndCurtailment s).1.power.export_energy = s.power.export_energy) ∧
    (∀ s : State, (ImportPower s).1.power.export_energy = s.power.export_energy) ∧
    (∀ s : State, (IdleLoss s).1.power.export_energy = s.power.export_energy) := by
  refine ⟨fun s => rfl, ?_, ?_, ?_, fun s => rfl, fun s => rfl, fun s => rfl,
    fun s => rfl, fun s => rfl, fun s => rfl⟩
  · intro cfg ucm s0
    simp [construct, QueryProperties, queryPropertiesPower_export_energy]
  · intro ucm s
    simp [QueryProperties, queryPropertiesPower_export_energy]
  · intro sec mn hb ucm s
    exact Loop_export_energy sec mn hb ucm s

/-- C8: `EndCurtailment` issues exactly one end-shed command with zero
duration and leaves the entire controller state (in particular the local
operational state `opstate_`) unchanged, so it never writes `NORMAL` itself;
moreover the reconciliation loop (whose arbitration step is the only
subsequent load/shed decision point) also never changes the local operational
state on any tick. -/
theorem end_curtailment_frame :
    (∀ s : State, EndCurtailment s = (s, [Command.endShed 0])) ∧
    (∀ (sec mn hb : Nat) (ucm : UcmState) (s : State),
      (Loop sec mn hb ucm s).state.opstate = s.opstate) :=
  ⟨fun _ => rfl, fun sec mn hb ucm s => Loop_opstate sec mn hb ucm s⟩

/-- C9 counterexample: two configurations that disagree on every numeric field
(and contain neither the value 4500 nor 100) both yield rated import power
4500 and idle losses 100 after construction: those two "static DER
properties" are hardcoded constants in the constructor, not values supplied by
configuration; only the import ramp is taken from the configuration. -/
theorem construct_static_properties_cex :
    (construct (Configs.mk 7 9 777) (UcmState.mk [] OpState.NORMAL)
        (State.mk (PowerState.mk 0 0 0 0 0 0 0 0) 0 0)).1.power.rated_import_power = 4500 ∧
    (construct (Configs.mk 7 9 777) (UcmState.mk [] OpState.NORMAL)
        (State.mk (PowerState.mk 0 0 0 0 0 0 0 0) 0 0)).1.power.idle_losses = 100 ∧
    (construct (Configs.mk 8 10 888) (UcmState.mk [] OpState.NORMAL)
        (State.mk (PowerState.mk 0 0 0 0 0 0 0 0) 0 0)).1.power.rated_import_power = 4500 ∧
    (construct (Configs.mk 8 10 888) (UcmState.mk [] OpState.NORMAL)
        (State.mk (PowerState.mk 0 0 0 0 0 0 0 0) 0 0)).1.power.idle_losses = 100 ∧
    (construct (Configs.mk 7 9 777) (UcmState.mk [] OpState.NORMAL)
        (State.mk (PowerState.mk 0 0 0 0 0 0 0 0) 0 0)).1.power.import_ramp = 777 := by
  decide

/-- C9 (amended): after the startup handshake the constructor initializes
rated import power to the hardcoded constant 4500 W and idle losses to the
hardcoded constant 100 W; only the import ramp comes from configuration
(`EWH_rated_import_ramp`); export energy is zeroed; one immediate property
refresh runs before the periodic loop (the resulting store is the commodity
fold of the initialized store, and the commodity query follows the four
handshake queries in the command trace). -/
theorem construct_static_properties (cfg : Configs) (ucm : UcmState) (s0 : State) :
    (construct cfg ucm s0).1.power.rated_import_power = 4500 ∧
    (construct cfg ucm s0).1.power.idle_losses = 100 ∧
    (construct cfg ucm s0).1.power.import_ramp = cfg.ewh_rated_import_ramp ∧
    (construct cfg ucm s0).1.power.export_energy = 0 ∧
    (construct cfg ucm s0).1.power =
      queryPropertiesPower
        { s0.power with
          rated_import_power := 4500
          export_energy := 0
          import_ramp := cfg.ewh_rated_import_ramp
          idle_losses := 100 }
        ucm.commodities ∧
    (construct cfg ucm s0).2 =
      [Command.commStatusFound, Command.querySupportDataLinkMessages,
       Command.queryMaxPayload, Command.querySupportIntermediateMessages,
       Command.getDeviceInformation, Command.getCommodity,
       Command.queryOperationalState] := by
  refine ⟨?_, ?_, ?_, ?_, rfl, rfl⟩ <;>
    simp [construct, QueryProperties, queryPropertiesPower_rated_import_power,
      queryPropertiesPower_idle_losses, queryPropertiesPower_import_ramp,
      queryPropertiesPower_export_energy]

/-- C10: each of `SetCriticalPeak`, `SetLoadUp` and `SetGridEmergency`
modifies only the local operational state among the controller's fields (the
whole Property Store and `log_minute_` are unchanged for every starting
state) and issues exactly one device command, with zero duration, per
invocation. -/
theorem dr_handlers_frame (s : State) :
    (SetCriticalPeak s).1.power = s.power ∧
    (SetCriticalPeak s).1.log_minute = s.log_minute ∧
    (SetCriticalPeak s).2 = [Command.criticalPeakEvent 0] ∧
    (SetCriticalPeak s).1.opstate = 4 ∧
    (SetLoadUp s).1.power = s.power ∧
    (SetLoadUp s).1.log_minute = s.log_minute ∧
    (SetLoadUp s).2 = [Command.loadUp 0] ∧
    (SetLoadUp s).1.opstate = 3 ∧
    (SetGridEmergency s).1.power = s.power ∧
    (SetGridEmergency s).1.log_minute = s.log_minute ∧
    (SetGridEmergency s).2 = [Command.gridEmergency 0] ∧
    (SetGridEmergency s).1.opstate = 5 :=
  ⟨rfl, rfl, rfl, rfl, rfl, rfl, rfl, rfl, rfl, rfl, rfl, rfl⟩

end ElectricWaterHeater
